import Mathlib

/-!
Verification development for the `uccli` state-machine CLI framework
(`src/uccli/main.py`).

The Python code is shallowly embedded as follows.

* Python `State` objects are mutable and aliased (the registry of a
  `StateMachine` and the transition maps of other states hold references to
  the same objects, and `State.add_transition` mutates an object in place).
  We therefore model object identity with a heap: a `State` value holds the
  state's `name` and its transition map, a `Heap` is the list of all `State`
  objects ever created (a state's identity is its index `StateId`), and
  mutation of a state is an update of the heap at that index.
* Python `dict` is modelled as an insertion-ordered association list with
  last-write-wins insert (`dictInsert` / `dictLookup` / `dictKeys`).
* `StateMachine.app` is `None` throughout this code base (nothing in the
  repository ever assigns it), so `StateMachine.on_state_changed` is a
  no-op and `StateMachine.transition` is modelled as the pure update of
  `current_state` / `last_transition`.
* JSON values are modelled by the inductive `JValue`; the `json` module's
  dumps/loads round-trip of such values is taken as the identity, i.e.
  serialized session files are kept at the `JValue` level (the text encoding
  belongs to the Python standard library, not to this repository).
* The filesystem used by `SharedStorage.save_to_file` / `load_from_file`
  and `StorageManager` is modelled as an association list from file name to
  file content (`FS`).
* Command handlers (`do_*` methods) act on an abstract handler-state type
  `σ` and finish either by returning a value (the `"CANCEL_TRANSITION"`
  sentinel, the `"EXIT"` sentinel, or anything else) or by raising an
  exception of some `ExnKind`.  `GenericCLI.onecmd` and the body of one
  `GenericCLI.cmdloop` iteration are embedded over this handler model, and
  user-visible effects (prints, handler invocations, visualisation, agent
  notification) are recorded in an event trace.
-/

namespace UCCLI

/-! ## Python `dict` as an insertion-ordered association list -/

/-- Lookup in a Python-dict association list (`d[k]` / `k in d`). -/
def dictLookup {β : Type} (k : String) : List (String × β) → Option β
  | [] => none
  | (k', v) :: rest => if k' = k then some v else dictLookup k rest

/-- `d[k] = v` on a Python dict: overwrite in place if the key exists,
append otherwise (Python dicts preserve insertion order). -/
def dictInsert {β : Type} (k : String) (v : β) : List (String × β) → List (String × β)
  | [] => [(k, v)]
  | (k', v') :: rest =>
      if k' = k then (k, v) :: rest else (k', v') :: dictInsert k v rest

/-- `d.keys()` of a Python dict. -/
def dictKeys {β : Type} (l : List (String × β)) : List String :=
  l.map (·.1)

/-! ## `State`, `Heap`, `StateMachine`  (src/uccli/main.py, lines 156-231) -/

/-- Identity of a Python `State` object: its index in the heap. -/
abbrev StateId := Nat

/-- `State` (main.py line 156): a name and a transition map
command-name → target state object.  The `_cli` back-reference and the
`show` flag play no role in any claim and are omitted. -/
structure State where
  name : String
  transitions : List (String × StateId)
deriving Repr, DecidableEq

/-- The collection of all `State` objects created so far; a `StateId` is an
index into it. -/
abbrev Heap := List State

/-- Reading a state object from the heap.  Python object references can
never dangle, so every `StateId` that actually occurs in a run is in
range; out-of-range indices return an inert default state. -/
def heapGetD : Heap → StateId → State
  | [], _ => ⟨"", []⟩
  | s :: _, 0 => s
  | _ :: rest, n + 1 => heapGetD rest n

/-- In-place update of one state object in the heap. -/
def heapSet : Heap → StateId → (State → State) → Heap
  | [], _, _ => []
  | s :: rest, 0, f => f s :: rest
  | s :: rest, n + 1, f => s :: heapSet rest n f

/-- `State.add_transition` (main.py line 173):
`self.transitions[command] = next_state`. -/
def State.add_transition (s : State) (command : String) (next_state : StateId) : State :=
  { s with transitions := dictInsert command next_state s.transitions }

/-- `StateMachine` (main.py line 176): current state object, the registry
`states : name → State`, and the last transition command.  The `app` field
is omitted: it is `None` everywhere in this repository, which makes
`on_state_changed` a no-op. -/
structure StateMachine where
  current_state : StateId
  states : List (String × StateId)
  last_transition : Option String
deriving Repr, DecidableEq

/-- `StateMachine.__init__` (main.py lines 185-190): the initial state is
implicitly registered under its name, `last_transition` starts as `None`. -/
def StateMachine.init (h : Heap) (initial_state : StateId) : StateMachine :=
  { current_state := initial_state
    states := [((heapGetD h initial_state).name, initial_state)]
    last_transition := none }

/-- `StateMachine.add_state` (main.py line 192):
`self.states[state.name] = state`. -/
def StateMachine.add_state (h : Heap) (sm : StateMachine) (state : StateId) : StateMachine :=
  { sm with states := dictInsert (heapGetD h state).name state sm.states }

/-- `StateMachine.transition` (main.py lines 216-227).  If `command` is a
key of the current state's transition map, move there, record the command
as `last_transition` and return `true`; otherwise change nothing and
return `false`.  (`on_state_changed` is a no-op here, see the module
comment.) -/
def StateMachine.transition (h : Heap) (sm : StateMachine) (command : String) :
    StateMachine × Bool :=
  match dictLookup command (heapGetD h sm.current_state).transitions with
  | some target =>
      ({ sm with current_state := target, last_transition := some command }, true)
  | none => (sm, false)

/-- `StateMachine.get_available_commands` (main.py lines 230-231):
the keys of the current state's transition map. -/
def StateMachine.get_available_commands (h : Heap) (sm : StateMachine) : List String :=
  dictKeys (heapGetD h sm.current_state).transitions

/-! ## JSON values, `SharedStorage`, `StorageManager`
(src/uccli/main.py, lines 658-793) -/

/-- A JSON value, the data domain of session files.  Numbers are modelled
as integers (no claim involves numeric content). -/
inductive JValue where
  | null : JValue
  | bool (b : Bool) : JValue
  | num (n : Int) : JValue
  | str (s : String) : JValue
  | arr (elems : List JValue) : JValue
  | obj (fields : List (String × JValue)) : JValue
deriving Repr

/-- `SharedStorage` (main.py lines 658-662): version tag, key→value data,
and the ordered command-history log (each entry a JSON object built by
`add_command_result`). -/
structure SharedStorage where
  version : String := "1.0.0"
  data : List (String × JValue) := []
  command_history : List JValue := []
deriving Repr

/-- `SharedStorage.update_data` (main.py line 692): `self.data[key] = value`. -/
def SharedStorage.update_data (s : SharedStorage) (key : String) (value : JValue) :
    SharedStorage :=
  { s with data := dictInsert key value s.data }

/-- `SharedStorage.get_data` (main.py line 695). -/
def SharedStorage.get_data (s : SharedStorage) (key : String) : Option JValue :=
  dictLookup key s.data

/-- `SharedStorage.add_command_result` (main.py lines 697-702).  The wall
clock is not modelled; the timestamp produced by `datetime.now().isoformat()`
is passed in as `ts`. -/
def SharedStorage.add_command_result (s : SharedStorage) (command : String)
    (result : JValue) (ts : String) : SharedStorage :=
  { s with command_history := s.command_history ++
      [JValue.obj [("command", JValue.str command), ("result", result),
                   ("timestamp", JValue.str ts)]] }

/-- `SharedStorage.to_json` (main.py lines 704-709): the serialized session
document, kept at the JSON-value level (see the module comment). -/
def SharedStorage.to_json (s : SharedStorage) : JValue :=
  JValue.obj [("version", JValue.str s.version), ("data", JValue.obj s.data),
              ("command_history", JValue.arr s.command_history)]

/-- `SharedStorage.from_json` (main.py lines 711-717): reads the three
top-level fields back; a document without them (or with fields of the
wrong shape) fails, which models the `KeyError` Python would raise. -/
def SharedStorage.from_json (j : JValue) : Option SharedStorage :=
  match j with
  | JValue.obj fields =>
      match dictLookup "version" fields, dictLookup "data" fields,
            dictLookup "command_history" fields with
      | some (JValue.str v), some (JValue.obj d), some (JValue.arr h) =>
          some { version := v, data := d, command_history := h }
      | _, _, _ => none
  | _ => none

/-- The filesystem: file name → file content (content kept as a `JValue`,
see the module comment). -/
abbrev FS := List (String × JValue)

/-- `SharedStorage.save_to_file` (main.py lines 719-721): whole-file
overwrite of `filename` with the serialized session. -/
def SharedStorage.save_to_file (s : SharedStorage) (fs : FS) (filename : String) : FS :=
  dictInsert filename s.to_json fs

/-- `SharedStorage.load_from_file` (main.py lines 723-726): read the file
and deserialize; a missing file fails (Python raises `FileNotFoundError`). -/
def SharedStorage.load_from_file (fs : FS) (filename : String) : Option SharedStorage :=
  (dictLookup filename fs).bind SharedStorage.from_json

/-- `StorageManager` (main.py lines 728-733): base directory, name of the
active session (if any) and its in-memory storage. -/
structure StorageManager where
  base_dir : String := ".uccli_sessions"
  current_session : Option String := none
  shared_storage : Option SharedStorage := none
deriving Repr

/-- The session file path `os.path.join(self.base_dir, f"{name}.json")`. -/
def sessionPath (base_dir name : String) : String :=
  base_dir ++ "/" ++ name ++ ".json"

/-- `StorageManager.create_session` (main.py lines 738-746).  Fails with
`ValueError("Session '<name>' already exists")` if the session file exists,
leaving everything unchanged; otherwise persists a fresh empty
`SharedStorage` and makes it the active session. -/
def StorageManager.create_session (fs : FS) (mgr : StorageManager) (name : String) :
    FS × StorageManager × Except String SharedStorage :=
  let session_path := sessionPath mgr.base_dir name
  if (dictLookup session_path fs).isSome then
    (fs, mgr, Except.error ("Session '" ++ name ++ "' already exists"))
  else
    let storage : SharedStorage := {}
    (storage.save_to_file fs session_path,
     { mgr with current_session := some name, shared_storage := some storage },
     Except.ok storage)

/-- `StorageManager.load_session` (main.py lines 748-754). -/
def StorageManager.load_session (fs : FS) (mgr : StorageManager) (name : String) :
    StorageManager × Except String SharedStorage :=
  let session_path := sessionPath mgr.base_dir name
  match SharedStorage.load_from_file fs session_path with
  | none => (mgr, Except.error ("Session '" ++ name ++ "' does not exist"))
  | some storage =>
      ({ mgr with current_session := some name, shared_storage := some storage },
       Except.ok storage)

/-! ## The `GenericCLI` dispatch engine (src/uccli/main.py, lines 275-594) -/

/-- Kinds of Python exceptions relevant to the dispatch loop:
`AttributeError` (the only kind `onecmd` catches), `KeyboardInterrupt` and
`EOFError` (the only kinds `cmdloop` catches), `TypeError`, and a bucket
for every other exception class. -/
inductive ExnKind where
  | attributeError
  | keyboardInterrupt
  | eofError
  | typeError
  | otherExn
deriving Repr, DecidableEq

/-- Return value of a handler: the `"CANCEL_TRANSITION"` sentinel, the
`"EXIT"` sentinel, or any other value (including `None`). -/
inductive HandlerRet where
  | cancelSentinel
  | exitSentinel
  | otherValue
deriving Repr, DecidableEq

/-- How a handler invocation finishes: a returned value or a raised
exception. -/
inductive HandlerOutcome where
  | ret (v : HandlerRet)
  | exn (e : ExnKind)
deriving Repr, DecidableEq

/-- A command handler (`do_<cmd>` method): takes the argument string and
the abstract handler-state, yields the new handler-state and an outcome. -/
def Handler (σ : Type) : Type :=
  String → σ → σ × HandlerOutcome

/-- The read-only snapshot `GenericCLI.update_agent_clibase` (main.py
lines 357-366) hands to the agent communicator. -/
structure Snapshot where
  current_state : String
  last_transition : Option String
  available_commands : List String
  storage_data : List (String × JValue)
  command_history : List JValue
  steak : Bool
deriving Repr

/-- Observable events of a dispatch cycle, in order of occurrence. -/
inductive Event where
  | printed (text : String)
  | handlerRan (command arg : String)
  | visualized
  | notified (snap : Snapshot)
deriving Repr

/-- The parts of a `GenericCLI` instance the dispatch loop touches:
the state machine (with its heap of state objects), the `do_*` handler
methods, the abstract handler-state they act on, the active session
(`current_storage`), `cmd.Cmd.lastcmd`, and the trace of observable
events. -/
structure CLI (σ : Type) where
  heap : Heap
  sm : StateMachine
  handlers : String → Option (Handler σ)
  handlerState : σ
  storage : Option SharedStorage
  lastcmd : String := ""
  events : List Event := []

/-- Append one observable event. -/
def addEvent {σ : Type} (cli : CLI σ) (e : Event) : CLI σ :=
  { cli with events := cli.events ++ [e] }

/-- The fixed always-available set of `GenericCLI.get_available_commands`
(main.py line 397). -/
def alwaysAvailable : List String :=
  ["help", "exit", "new_session", "load_session", "list_sessions"]

/-- `GenericCLI.get_available_commands` (main.py lines 389-398): the state
machine's current legal set unioned with the always-available set
(as lists; membership gives the set). -/
def GenericCLI.get_available_commands {σ : Type} (cli : CLI σ) : List String :=
  StateMachine.get_available_commands cli.heap cli.sm ++ alwaysAvailable

/-- The snapshot `GenericCLI.update_agent_clibase` (main.py lines 357-366)
builds: current state name, last transition, available commands, the
active session's data and history (empty when no session is active), and
the literal `"steak": True` entry of the source. -/
def mkSnapshot {σ : Type} (cli : CLI σ) : Snapshot :=
  { current_state := (heapGetD cli.heap cli.sm.current_state).name
    last_transition := cli.sm.last_transition
    available_commands := GenericCLI.get_available_commands cli
    storage_data := ((cli.storage.map SharedStorage.data).getD [])
    command_history := ((cli.storage.map SharedStorage.command_history).getD [])
    steak := true }

/-- `GenericCLI.update_agent_clibase` (main.py lines 357-366): build the
snapshot and send it to the agent communicator. -/
def GenericCLI.update_agent_clibase {σ : Type} (cli : CLI σ) : CLI σ :=
  addEvent cli (Event.notified (mkSnapshot cli))

/-- `cmd.Cmd.identchars`: ASCII letters, digits and underscore. -/
def isIdentChar (ch : Char) : Bool :=
  ch.isAlpha || ch.isDigit || ch = '_'

/-- Python `str.strip()`: remove leading and trailing whitespace.
(Implemented over the character list so that it reduces by computation.) -/
def pyStrip (s : String) : String :=
  String.mk (((s.data.dropWhile Char.isWhitespace).reverse.dropWhile
      Char.isWhitespace).reverse)

/-- `cmd.Cmd.parseline` (the standard-library method `GenericCLI.onecmd`
calls): strip the line; empty → `(None, None, line)`; a leading `?` is
rewritten to `help `; a leading `!` would dispatch to `do_shell`, which
`GenericCLI` does not define, so it yields `(None, None, line)`; otherwise
split at the end of the longest identifier prefix. -/
def parseline (line : String) : Option String × Option String × String :=
  let line := pyStrip line
  if line = "" then (none, none, line)
  else
    let line :=
      if line.data.headD ' ' = '?' then "help " ++ String.mk (line.data.drop 1) else line
    if line.data.headD ' ' = '!' then (none, none, line)
    else
      let c := String.mk (line.data.takeWhile isIdentChar)
      let arg := pyStrip (String.mk (line.data.dropWhile isIdentChar))
      (some c, some arg, line)

/-- How a call to `GenericCLI.onecmd` finishes: a returned stop flag
(Python `None` counts as `false`) or a propagating exception. -/
inductive OneCmdResult where
  | normal (stop : Bool)
  | raised (e : ExnKind)
deriving Repr, DecidableEq

/-- `cmd.Cmd.default`: print `*** Unknown syntax: <line>` and return
`None`. -/
def cliDefault {σ : Type} (cli : CLI σ) (line : String) : CLI σ × OneCmdResult :=
  (addEvent cli (Event.printed ("*** Unknown syntax: " ++ line)), OneCmdResult.normal false)

/-- The command-dispatch branch of `GenericCLI.onecmd` (main.py lines
565-589): validate against the available-commands union, look up and run
the handler (`getattr` failing or the body raising `AttributeError` is
caught and routed to `default`), honour the cancel sentinel, re-check the
transition map and transition, visualize, notify the agent, and stop the
loop exactly when the handler returned `"EXIT"`.  Any exception other
than `AttributeError` propagates. -/
def dispatch {σ : Type} (cli : CLI σ) (c arg parsedLine : String) : CLI σ × OneCmdResult :=
  if c ∈ GenericCLI.get_available_commands cli then
    match cli.handlers c with
    | none => cliDefault cli parsedLine
    | some f =>
      let r := f arg cli.handlerState
      let cli1 : CLI σ := { cli with handlerState := r.1,
                                     events := cli.events ++ [Event.handlerRan c arg] }
      match r.2 with
      | HandlerOutcome.exn ExnKind.attributeError => cliDefault cli1 parsedLine
      | HandlerOutcome.exn e => (cli1, OneCmdResult.raised e)
      | HandlerOutcome.ret HandlerRet.cancelSentinel => (cli1, OneCmdResult.normal false)
      | HandlerOutcome.ret v =>
        let cli2 : CLI σ :=
          if (dictLookup c (heapGetD cli1.heap cli1.sm.current_state).transitions).isSome
          then { cli1 with sm := (StateMachine.transition cli1.heap cli1.sm c).1 }
          else cli1
        let cli3 := addEvent cli2 Event.visualized
        let cli4 := GenericCLI.update_agent_clibase cli3
        (cli4, OneCmdResult.normal (match v with
                                    | HandlerRet.exitSentinel => true
                                    | _ => false))
  else
    (addEvent cli
       (Event.printed ("Command '" ++ c ++ "' not available in current state.")),
     OneCmdResult.normal false)

/-- `GenericCLI.onecmd` (main.py lines 544-589).  `fuel` bounds the
recursion of `cmd.Cmd.emptyline`, which re-runs `lastcmd` on an empty
line; every claim below concerns non-empty lines, where `fuel` is unused. -/
def onecmd {σ : Type} (fuel : Nat) (cli : CLI σ) (line : String) : CLI σ × OneCmdResult :=
  let p := parseline line
  let parsedLine := p.2.2
  if parsedLine = "" then
    if cli.lastcmd = "" then (cli, OneCmdResult.normal false)
    else
      match fuel with
      | 0 => (cli, OneCmdResult.normal false)
      | fuel' + 1 => onecmd fuel' cli cli.lastcmd
  else
    match p.1 with
    | none => cliDefault cli parsedLine
    | some c =>
      let cli' : CLI σ := { cli with lastcmd := parsedLine }
      if c = "" then cliDefault cli' parsedLine
      else dispatch cli' c (p.2.1.getD "") parsedLine

/-- How one iteration of `GenericCLI.cmdloop` ends: go round again, leave
the loop normally, or die on an uncaught exception. -/
inductive LoopOutcome where
  | continueLoop
  | stopLoop
  | crashed (e : ExnKind)
deriving Repr, DecidableEq

/-- The body of one `GenericCLI.cmdloop` iteration (main.py lines
531-542) on a given input line: `precmd` (which calls
`GenericCLI.save_current_session`; with an active session that call passes
a spurious positional argument to `StorageManager.save_current_session`
(main.py line 344 vs line 756) and raises `TypeError`), then `onecmd`,
then `postcmd` (which prints the current state when not stopping).  The
surrounding `try` catches only `KeyboardInterrupt` (print `^C`, continue)
and `EOFError` (print `^D`, leave); every other exception propagates out
of `cmdloop`. -/
def cmdloopStep {σ : Type} (fuel : Nat) (cli : CLI σ) (line : String) :
    CLI σ × LoopOutcome :=
  if cli.storage.isSome then (cli, LoopOutcome.crashed ExnKind.typeError)
  else
    match onecmd fuel cli line with
    | (cli', OneCmdResult.normal stop) =>
        if stop then (cli', LoopOutcome.stopLoop)
        else
          (addEvent cli' (Event.printed ("\nCurrent state: " ++
              (heapGetD cli'.heap cli'.sm.current_state).name)),
           LoopOutcome.continueLoop)
    | (cli', OneCmdResult.raised ExnKind.keyboardInterrupt) =>
        (addEvent cli' (Event.printed "^C"), LoopOutcome.continueLoop)
    | (cli', OneCmdResult.raised ExnKind.eofError) =>
        (addEvent cli' (Event.printed "^D"), LoopOutcome.stopLoop)
    | (cli', OneCmdResult.raised e) => (cli', LoopOutcome.crashed e)

/-- Number of agent notifications in an event trace. -/
def notifyCount (events : List Event) : Nat :=
  (events.filter fun e => match e with
    | Event.notified _ => true
    | _ => false).length

/-- Number of invocations of the handler of command `c` in an event
trace. -/
def handlerRanCount (c : String) (events : List Event) : Nat :=
  (events.filter fun e => match e with
    | Event.handlerRan c' _ => c' == c
    | _ => false).length

/-! ## Reachable `StateMachine` configurations (for the registry
invariant).  A configuration pairs the heap of `State` objects with the
machine; the operations are exactly the mutators the repository exposes:
creating a `State` object, `StateMachine.add_state`,
`State.add_transition`, and `StateMachine.transition`. -/

/-- A heap of state objects together with a machine over it. -/
structure Config where
  heap : Heap
  sm : StateMachine
deriving Repr, DecidableEq

/-- `StateMachine(initial_state)` where `initial_state = State(name)` is
the only state object so far. -/
def Config.start (name : String) : Config :=
  let h : Heap := [⟨name, []⟩]
  ⟨h, StateMachine.init h 0⟩

/-- `State(name)`: create a fresh state object. -/
def Config.newState (cfg : Config) (name : String) : Config :=
  { cfg with heap := cfg.heap ++ [⟨name, []⟩] }

/-- `sm.add_state(s)`. -/
def Config.addState (cfg : Config) (sid : StateId) : Config :=
  { cfg with sm := StateMachine.add_state cfg.heap cfg.sm sid }

/-- `s.add_transition(c, t)`. -/
def Config.addTransition (cfg : Config) (sid : StateId) (c : String) (tid : StateId) :
    Config :=
  { cfg with heap := heapSet cfg.heap sid (fun s => s.add_transition c tid) }

/-- `sm.transition(c)` (the state-machine part; the boolean is dropped). -/
def Config.transition (cfg : Config) (c : String) : Config :=
  { cfg with sm := (StateMachine.transition cfg.heap cfg.sm c).1 }

/-- `sid` occurs among the values of the registry `states`. -/
def valueRegistered (states : List (String × StateId)) (sid : StateId) : Bool :=
  states.any fun p => p.2 == sid

/-- The machine's current state object is a member of its registry. -/
def currentRegistered (cfg : Config) : Bool :=
  valueRegistered cfg.sm.states cfg.sm.current_state

/-- Configurations reachable from construction by any sequence of state
creations, `add_state`, `add_transition` and `transition` calls. -/
inductive Reachable : Config → Prop where
  | start (name : String) : Reachable (Config.start name)
  | newState {cfg : Config} (name : String) :
      Reachable cfg → Reachable (cfg.newState name)
  | addState {cfg : Config} (sid : StateId) :
      Reachable cfg → Reachable (cfg.addState sid)
  | addTransition {cfg : Config} (sid : StateId) (c : String) (tid : StateId) :
      Reachable cfg → Reachable (cfg.addTransition sid c tid)
  | transition {cfg : Config} (c : String) :
      Reachable cfg → Reachable (cfg.transition c)

/-- Reachability restricted to disciplined call sequences: every
`add_transition` targets a state already in the registry, and no
`add_state` rebinds an existing name to a different state object. -/
inductive ReachableClosed : Config → Prop where
  | start (name : String) : ReachableClosed (Config.start name)
  | newState {cfg : Config} (name : String) :
      ReachableClosed cfg → ReachableClosed (cfg.newState name)
  | addState {cfg : Config} (sid : StateId) :
      ReachableClosed cfg →
      (dictLookup (heapGetD cfg.heap sid).name cfg.sm.states = none ∨
       dictLookup (heapGetD cfg.heap sid).name cfg.sm.states = some sid) →
      ReachableClosed (cfg.addState sid)
  | addTransition {cfg : Config} (sid : StateId) (c : String) (tid : StateId) :
      ReachableClosed cfg → valueRegistered cfg.sm.states tid = true →
      ReachableClosed (cfg.addTransition sid c tid)
  | transition {cfg : Config} (c : String) :
      ReachableClosed cfg → ReachableClosed (cfg.transition c)

/-! ## Concrete fixtures (used by witnesses and counterexamples).
The machine is the counter CLI of the repository's test-suite: states
`zero` and `positive`, plus two extra self-loop commands on `zero` whose
handlers exercise the cancel sentinel and an uncaught exception. -/

/-- Two state objects: `zero` (id 0) and `positive` (id 1). -/
def egHeap : Heap :=
  [⟨"zero", [("increment", 1), ("show", 0), ("cancelme", 0), ("boom", 0)]⟩,
   ⟨"positive", [("increment", 1), ("decrement", 1), ("decrement_to_zero", 0), ("show", 1)]⟩]

/-- The machine over `egHeap`, sitting in `zero`. -/
def egSM : StateMachine :=
  { current_state := 0, states := [("zero", 0), ("positive", 1)], last_transition := none }

/-- Handlers over a counter: `increment` bumps it; `cancelme` returns the
cancel sentinel; `boom` raises a generic exception; `show` returns
normally. -/
def egHandlers : String → Option (Handler Nat) := fun c =>
  if c = "increment" then
    some (fun _ n => (n + 1, HandlerOutcome.ret HandlerRet.otherValue))
  else if c = "show" then
    some (fun _ n => (n, HandlerOutcome.ret HandlerRet.otherValue))
  else if c = "cancelme" then
    some (fun _ n => (n, HandlerOutcome.ret HandlerRet.cancelSentinel))
  else if c = "boom" then
    some (fun _ n => (n, HandlerOutcome.exn ExnKind.otherExn))
  else none

/-- The fixture CLI: counter machine, no active session. -/
def egCLI : CLI Nat :=
  { heap := egHeap, sm := egSM, handlers := egHandlers, handlerState := 0,
    storage := none }

/-- A machine escaping its registry: `B = State("B")` is created but never
`add_state`-ed, `A` gets a transition to it, and the machine takes it. -/
def egEscapeCfg : Config :=
  Config.transition (Config.addTransition (Config.newState (Config.start "A") "B") 0 "go" 1) "go"

/-- The same construction done in a disciplined way: `B` is registered
before the transition to it is added. -/
def egClosedCfg : Config :=
  Config.transition
    (Config.addTransition (Config.addState (Config.newState (Config.start "A") "B") 1) 0 "go" 1)
    "go"

/-! ## Helper lemmas -/

theorem dictLookup_dictInsert_self {β : Type} (k : String) (v : β) (l : List (String × β)) :
    dictLookup k (dictInsert k v l) = some v := by
  induction l with
  | nil => simp [dictInsert, dictLookup]
  | cons q rest ih =>
      obtain ⟨k', v'⟩ := q
      by_cases hk : k' = k
      · simp [dictInsert, hk, dictLookup]
      · simp [dictInsert, hk, dictLookup, ih]

theorem mem_of_dictLookup {β : Type} {k : String} {v : β} {l : List (String × β)}
    (h : dictLookup k l = some v) : (k, v) ∈ l := by
  induction l with
  | nil => simp [dictLookup] at h
  | cons q rest ih =>
      obtain ⟨k', v'⟩ := q
      by_cases hk : k' = k
      · subst hk
        simp [dictLookup] at h
        simp [h]
      · simp [dictLookup, hk] at h
        exact List.mem_cons_of_mem _ (ih h)

theorem mem_dictKeys_of_dictLookup {β : Type} {k : String} {v : β} {l : List (String × β)}
    (h : dictLookup k l = some v) : k ∈ dictKeys l := by
  have := mem_of_dictLookup h
  simp only [dictKeys, List.mem_map]
  exact ⟨(k, v), this, rfl⟩

theorem mem_dictInsert {β : Type} {p : String × β} {k : String} {v : β}
    {l : List (String × β)} (hp : p ∈ dictInsert k v l) : p = (k, v) ∨ p ∈ l := by
  induction l with
  | nil => simpa [dictInsert] using hp
  | cons q rest ih =>
      obtain ⟨k', v'⟩ := q
      by_cases hk : k' = k
      · simp only [dictInsert, if_pos hk, List.mem_cons] at hp
        rcases hp with h1 | h2
        · exact Or.inl h1
        · exact Or.inr (List.mem_cons_of_mem _ h2)
      · simp only [dictInsert, if_neg hk, List.mem_cons] at hp
        rcases hp with h1 | h2
        · exact Or.inr (by simp [h1])
        · rcases ih h2 with h3 | h4
          · exact Or.inl h3
          · exact Or.inr (List.mem_cons_of_mem _ h4)

theorem mem_heapSet {h : Heap} {i : StateId} {f : State → State} {s : State}
    (hs : s ∈ heapSet h i f) : s ∈ h ∨ ∃ s₀, s₀ ∈ h ∧ s = f s₀ := by
  induction h generalizing i with
  | nil => simp [heapSet] at hs
  | cons q rest ih =>
      cases i with
      | zero =>
          simp only [heapSet, List.mem_cons] at hs
          rcases hs with h1 | h2
          · exact Or.inr ⟨q, List.mem_cons_self _ _, h1⟩
          · exact Or.inl (List.mem_cons_of_mem _ h2)
      | succ n =>
          simp only [heapSet, List.mem_cons] at hs
          rcases hs with h1 | h2
          · exact Or.inl (by simp [h1])
          · rcases ih h2 with h3 | ⟨s₀, hs₀, hf⟩
            · exact Or.inl (List.mem_cons_of_mem _ h3)
            · exact Or.inr ⟨s₀, List.mem_cons_of_mem _ hs₀, hf⟩

theorem heapGetD_mem_or_default (h : Heap) (i : StateId) :
    heapGetD h i ∈ h ∨ heapGetD h i = ⟨"", []⟩ := by
  induction h generalizing i with
  | nil => exact Or.inr rfl
  | cons q rest ih =>
      cases i with
      | zero => exact Or.inl (by simp [heapGetD])
      | succ n =>
          rcases ih n with h1 | h2
          · exact Or.inl (by simp [heapGetD]; exact Or.inr h1)
          · exact Or.inr (by simpa [heapGetD] using h2)

theorem valueRegistered_dictInsert {states : List (String × StateId)} {k : String}
    {sid j : StateId}
    (hcond : dictLookup k states = none ∨ dictLookup k states = some sid)
    (hj : valueRegistered states j = true) :
    valueRegistered (dictInsert k sid states) j = true := by
  induction states with
  | nil => simp [valueRegistered] at hj
  | cons q rest ih =>
      obtain ⟨k', v'⟩ := q
      by_cases hk : k' = k
      · subst hk
        have hv : v' = sid := by
          rcases hcond with h1 | h1 <;> simp [dictLookup] at h1
          exact h1
        subst hv
        simpa [dictInsert, valueRegistered] using hj
      · have hcond' : dictLookup k rest = none ∨ dictLookup k rest = some sid := by
          rcases hcond with h1 | h1 <;> simp [dictLookup, hk] at h1 <;> simp [h1]
        simp only [valueRegistered, List.any_cons, Bool.or_eq_true] at hj
        rcases hj with h1 | h2
        · simp [dictInsert, hk, valueRegistered, List.any_cons, h1]
        · have := ih hcond' h2
          simp only [valueRegistered] at this
          simp [dictInsert, hk, valueRegistered, List.any_cons, this]

/-! ## Claims about `StateMachine.transition` -/

/-- C2: `StateMachine.transition(C)` returns `true`, moves the current
state to the target the (pre-call) current state's transition map assigns
to `C`, and records `C` as `last_transition`, exactly when `C` is a key of
that map; otherwise it returns `false` and the machine is unchanged. -/
theorem transition_correct (h : Heap) (sm : StateMachine) (c : String) :
    ((StateMachine.transition h sm c).2 = true ↔
        (dictLookup c (heapGetD h sm.current_state).transitions).isSome = true) ∧
    (∀ t, dictLookup c (heapGetD h sm.current_state).transitions = some t →
        StateMachine.transition h sm c =
          ({ sm with current_state := t, last_transition := some c }, true)) ∧
    (dictLookup c (heapGetD h sm.current_state).transitions = none →
        StateMachine.transition h sm c = (sm, false)) := by
  refine ⟨?_, ?_, ?_⟩
  · cases hl : dictLookup c (heapGetD h sm.current_state).transitions <;>
      simp [StateMachine.transition, hl]
  · intro t ht
    simp [StateMachine.transition, ht]
  · intro ht
    simp [StateMachine.transition, ht]

/-- Witness for C2, on the counter machine: from `zero`, `increment` moves
to `positive` (state id 1) and is recorded; the key lookup is discharged
by `rfl`. -/
theorem transition_correct_witness :
    StateMachine.transition egHeap egSM "increment" =
      ({ egSM with current_state := 1, last_transition := some "increment" }, true) :=
  (transition_correct egHeap egSM "increment").2.1 1 rfl

/-- C10: a failed `StateMachine.transition(C)` (whose command is not a key
of the current state's transition map) returns the machine record entirely
unchanged — same `current_state`, same `last_transition`, same `states`
registry — together with `false`. -/
theorem transition_failed_frame (h : Heap) (sm : StateMachine) (c : String)
    (hnone : dictLookup c (heapGetD h sm.current_state).transitions = none) :
    StateMachine.transition h sm c = (sm, false) := by
  simp [StateMachine.transition, hnone]

/-- Witness for C10: `decrement` is not legal in `zero`; the machine comes
back untouched. -/
theorem transition_failed_frame_witness :
    StateMachine.transition egHeap egSM "decrement" = (egSM, false) :=
  transition_failed_frame egHeap egSM "decrement" rfl

/-! ## Claims about session storage -/

/-- C6: serializing a session storage with `save_to_file` and reading it
back with `load_from_file` under the same session name reproduces the
storage exactly — in particular an equal `data` mapping and an equal,
order-preserving `command_history` sequence. -/
theorem session_round_trip (fs : FS) (base name : String) (s : SharedStorage) :
    SharedStorage.load_from_file (s.save_to_file fs (sessionPath base name))
      (sessionPath base name) = some s := by
  have hfrom : SharedStorage.from_json s.to_json = some s := by
    obtain ⟨v, d, ch⟩ := s
    rfl
  simp [SharedStorage.load_from_file, SharedStorage.save_to_file,
    dictLookup_dictInsert_self, hfrom]

/-- C7: `create_session` fails with the already-exists error whenever the
session file is persisted, leaving filesystem and manager untouched; a
fresh name creates an empty session (version `"1.0.0"`, empty data,
empty history), persists it and makes it active; and calling it twice in
a row always fails the second time, leaving the first call's filesystem
unchanged. -/
theorem create_session_spec (fs : FS) (mgr : StorageManager) (name : String) :
    ((dictLookup (sessionPath mgr.base_dir name) fs).isSome = true →
        StorageManager.create_session fs mgr name =
          (fs, mgr, Except.error ("Session '" ++ name ++ "' already exists"))) ∧
    (dictLookup (sessionPath mgr.base_dir name) fs = none →
        StorageManager.create_session fs mgr name =
          (dictInsert (sessionPath mgr.base_dir name)
              (SharedStorage.to_json ⟨"1.0.0", [], []⟩) fs,
           { mgr with current_session := some name,
                      shared_storage := some ⟨"1.0.0", [], []⟩ },
           Except.ok ⟨"1.0.0", [], []⟩)) ∧
    ((StorageManager.create_session (StorageManager.create_session fs mgr name).1
        (StorageManager.create_session fs mgr name).2.1 name).2.2 =
      Except.error ("Session '" ++ name ++ "' already exists") ∧
     (StorageManager.create_session (StorageManager.create_session fs mgr name).1
        (StorageManager.create_session fs mgr name).2.1 name).1 =
      (StorageManager.create_session fs mgr name).1) := by
  refine ⟨?_, ?_, ?_⟩
  · intro hs
    simp [StorageManager.create_session, hs]
  · intro hn
    simp [StorageManager.create_session, hn, SharedStorage.save_to_file]
  · by_cases hs : (dictLookup (sessionPath mgr.base_dir name) fs).isSome = true
    · simp [StorageManager.create_session, hs]
    · have hn : ¬ (dictLookup (sessionPath mgr.base_dir name) fs).isSome = true := hs
      constructor <;>
        simp [StorageManager.create_session, hn, SharedStorage.save_to_file,
          dictLookup_dictInsert_self]

/-- Witness for C7: creating `"x"` on an empty filesystem persists the
empty session and activates it, and an immediate second `create_session
"x"` fails with the already-exists error without touching the file. -/
theorem create_session_spec_witness :
    StorageManager.create_session [] ({} : StorageManager) "x" =
      (dictInsert (sessionPath ({} : StorageManager).base_dir "x")
          (SharedStorage.to_json ⟨"1.0.0", [], []⟩) [],
       { base_dir := ({} : StorageManager).base_dir, current_session := some "x",
         shared_storage := some ⟨"1.0.0", [], []⟩ },
       Except.ok ⟨"1.0.0", [], []⟩) ∧
    (StorageManager.create_session (StorageManager.create_session [] {} "x").1
        (StorageManager.create_session [] {} "x").2.1 "x").2.2 =
      Except.error ("Session 'x' already exists") :=
  ⟨(create_session_spec [] {} "x").2.1 rfl, ((create_session_spec [] {} "x").2.2).1⟩

/-! ## Claims about the available-commands union -/

/-- C4: the CLI's `get_available_commands` is (as a set, i.e. up to
membership) the keys of the current state's transition map unioned with
the fixed always-available set `{help, exit, new_session, load_session,
list_sessions}`; and after a successful transition the recomputed set is
the new current state's keys unioned with the same fixed set. -/
theorem get_available_commands_union {σ : Type} (cli : CLI σ) :
    (∀ c, c ∈ GenericCLI.get_available_commands cli ↔
        c ∈ dictKeys (heapGetD cli.heap cli.sm.current_state).transitions ∨
        c ∈ alwaysAvailable) ∧
    (∀ cmd t, dictLookup cmd (heapGetD cli.heap cli.sm.current_state).transitions = some t →
        ∀ c, c ∈ GenericCLI.get_available_commands
                { cli with sm := (StateMachine.transition cli.heap cli.sm cmd).1 } ↔
              c ∈ dictKeys (heapGetD cli.heap t).transitions ∨ c ∈ alwaysAvailable) := by
  constructor
  · intro c
    simp [GenericCLI.get_available_commands, StateMachine.get_available_commands,
      List.mem_append]
  · intro cmd t ht c
    simp [GenericCLI.get_available_commands, StateMachine.get_available_commands,
      StateMachine.transition, ht, List.mem_append]

/-- Witness for C4, on the counter machine: in `zero`, `increment` is
available and comes from the transition map; after transitioning on
`increment`, `decrement` is available exactly because the new state
`positive` maps it. -/
theorem get_available_commands_union_witness :
    ("increment" ∈ GenericCLI.get_available_commands egCLI ↔
        "increment" ∈ dictKeys (heapGetD egCLI.heap egCLI.sm.current_state).transitions ∨
        "increment" ∈ alwaysAvailable) ∧
    ("decrement" ∈ GenericCLI.get_available_commands
        { egCLI with sm := (StateMachine.transition egCLI.heap egCLI.sm "increment").1 } ↔
      "decrement" ∈ dictKeys (heapGetD egCLI.heap 1).transitions ∨
      "decrement" ∈ alwaysAvailable) :=
  ⟨(get_available_commands_union egCLI).1 "increment",
   (get_available_commands_union egCLI).2 "increment" 1 rfl "decrement"⟩

/-! ## The registry invariant (C5) -/

/-- Invariant carried through disciplined call sequences: every transition
target anywhere in the heap is a registry value, and so is the current
state. -/
theorem reachableClosed_inv {cfg : Config} (hr : ReachableClosed cfg) :
    (∀ s ∈ cfg.heap, ∀ p ∈ s.transitions, valueRegistered cfg.sm.states p.2 = true) ∧
    currentRegistered cfg = true := by
  induction hr with
  | start name =>
      constructor
      · intro s hs p hp
        simp only [Config.start, List.mem_singleton] at hs
        subst hs
        simp at hp
      · simp [Config.start, currentRegistered, valueRegistered, StateMachine.init]
  | newState name hr ih =>
      obtain ⟨ih1, ih2⟩ := ih
      constructor
      · intro s hs p hp
        simp only [Config.newState, List.mem_append, List.mem_singleton] at hs
        rcases hs with hs | hs
        · exact ih1 s hs p hp
        · subst hs; simp at hp
      · exact ih2
  | addState sid hr hcond ih =>
      obtain ⟨ih1, ih2⟩ := ih
      constructor
      · intro s hs p hp
        exact valueRegistered_dictInsert hcond (ih1 s hs p hp)
      · exact valueRegistered_dictInsert hcond ih2
  | addTransition sid c tid hr htid ih =>
      obtain ⟨ih1, ih2⟩ := ih
      constructor
      · intro s hs p hp
        rcases mem_heapSet hs with hs0 | ⟨s₀, hs₀, hf⟩
        · exact ih1 s hs0 p hp
        · subst hf
          simp only [State.add_transition] at hp
          rcases mem_dictInsert hp with h1 | h2
          · subst h1; exact htid
          · exact ih1 s₀ hs₀ p h2
      · exact ih2
  | transition c hr ih =>
      obtain ⟨ih1, ih2⟩ := ih
      rename_i cfg'
      cases hl : dictLookup c (heapGetD cfg'.heap cfg'.sm.current_state).transitions with
      | none =>
          constructor
          · intro s hs p hp
            simp only [Config.transition, StateMachine.transition, hl] at *
            exact ih1 s hs p hp
          · simp only [currentRegistered, Config.transition, StateMachine.transition, hl]
            exact ih2
      | some tid =>
          have htid : valueRegistered cfg'.sm.states tid = true := by
            rcases heapGetD_mem_or_default cfg'.heap cfg'.sm.current_state with hm | hd
            · exact ih1 _ hm (c, tid) (mem_of_dictLookup hl)
            · rw [hd] at hl; simp [dictLookup] at hl
          constructor
          · intro s hs p hp
            simp only [Config.transition, StateMachine.transition, hl] at *
            exact ih1 s hs p hp
          · simp only [currentRegistered, Config.transition, StateMachine.transition, hl]
            exact htid

/-- C5 (amended): in every configuration reachable from construction by
`add_state`, `add_transition` and `transition` calls in which every
`add_transition` call's target is already registered and no `add_state`
call rebinds an existing name to a different state object, the current
state is a member of the `states` registry. -/
theorem current_state_registered {cfg : Config} (hr : ReachableClosed cfg) :
    currentRegistered cfg = true :=
  (reachableClosed_inv hr).2

/-- Witness for C5: a disciplined two-state build-up (`B` is registered
before the edge to it exists) ends with its current state registered. -/
theorem current_state_registered_witness :
    ReachableClosed egClosedCfg ∧ currentRegistered egClosedCfg = true := by
  have hr : ReachableClosed egClosedCfg :=
    ReachableClosed.transition "go"
      (ReachableClosed.addTransition 0 "go" 1
        (ReachableClosed.addState 1
          (ReachableClosed.newState "B" (ReachableClosed.start "A"))
          (Or.inl rfl))
        (by decide))
  exact ⟨hr, current_state_registered hr⟩

/-- C5 counterexample: the claim as stated is false.  `B = State("B")` is
created but never passed to `add_state`; `A.add_transition("go", B)` and
`transition("go")` are legitimate calls, yet afterwards the current state
object is not a member of the `states` registry. -/
theorem current_state_escapes_registry :
    Reachable egEscapeCfg ∧ currentRegistered egEscapeCfg = false := by
  constructor
  · exact Reachable.transition "go"
      (Reachable.addTransition 0 "go" 1
        (Reachable.newState "B" (Reachable.start "A")))
  · decide

/-! ## Claims about `GenericCLI.onecmd` and the dispatch loop -/

/-- On a line that parses to a non-empty command token, `onecmd` records
the line as `lastcmd` and enters the dispatch branch. -/
theorem onecmd_eq_dispatch {σ : Type} (fuel : Nat) (cli : CLI σ) {line c a l' : String}
    (hp : parseline line = (some c, some a, l')) (hl : l' ≠ "") (hc : c ≠ "") :
    onecmd fuel cli line = dispatch { cli with lastcmd := l' } c a l' := by
  unfold onecmd
  rw [hp]
  simp only [if_neg hl, if_neg hc]
  rfl

/-- C1: dispatching a command token that is neither a key of the current
state's transition map nor in the always-available set never invokes any
handler, leaves the whole CLI state (in particular the state machine)
unchanged apart from recording `lastcmd`, emits the
`not available in current state` message, and returns `False`. -/
theorem onecmd_unavailable {σ : Type} (fuel : Nat) (cli : CLI σ) {line c a l' : String}
    (hp : parseline line = (some c, some a, l')) (hl : l' ≠ "") (hc : c ≠ "")
    (hkey : c ∉ dictKeys (heapGetD cli.heap cli.sm.current_state).transitions)
    (halways : c ∉ alwaysAvailable) :
    onecmd fuel cli line =
      ({ cli with lastcmd := l',
                  events := cli.events ++
                    [Event.printed
                      ("Command '" ++ c ++ "' not available in current state.")] },
       OneCmdResult.normal false) := by
  rw [onecmd_eq_dispatch fuel cli hp hl hc]
  have hnot : c ∉ GenericCLI.get_available_commands { cli with lastcmd := l' } := by
    simp only [GenericCLI.get_available_commands, StateMachine.get_available_commands,
      List.mem_append]
    rintro (h | h)
    · exact hkey h
    · exact halways h
  simp only [dispatch, if_neg hnot]
  rfl

/-- Witness for C1: `decrement` is neither legal in `zero` nor
always-available; dispatching it changes nothing and prints the message. -/
theorem onecmd_unavailable_witness :
    onecmd 1 egCLI "decrement" =
      ({ egCLI with lastcmd := "decrement",
                    events := egCLI.events ++
                      [Event.printed
                        "Command 'decrement' not available in current state."] },
       OneCmdResult.normal false) :=
  @onecmd_unavailable Nat 1 egCLI "decrement" "decrement" "" "decrement"
    (by decide) (by decide) (by decide) (by decide) (by decide)

/-- C3: dispatching a command `c` that is a key of the current state's
transition map through `onecmd` runs the handler (provided the handler
method exists and returns normally) and then moves the current state to
exactly the mapped target with `last_transition` set to `c` — unless the
handler returns the cancel sentinel, in which case the handler still ran
but the state machine is unchanged and the loop is told to continue. -/
theorem onecmd_legal_transition {σ : Type} (fuel : Nat) (cli : CLI σ)
    {line c a l' : String} {t : StateId} {f : Handler σ} {st' : σ} {v : HandlerRet}
    (hp : parseline line = (some c, some a, l')) (hl : l' ≠ "") (hc : c ≠ "")
    (hlook : dictLookup c (heapGetD cli.heap cli.sm.current_state).transitions = some t)
    (hh : cli.handlers c = some f)
    (hrun : f a cli.handlerState = (st', HandlerOutcome.ret v)) :
    Event.handlerRan c a ∈ (onecmd fuel cli line).1.events ∧
    (v = HandlerRet.cancelSentinel →
        (onecmd fuel cli line).1.sm = cli.sm ∧
        (onecmd fuel cli line).2 = OneCmdResult.normal false) ∧
    (v ≠ HandlerRet.cancelSentinel →
        (onecmd fuel cli line).1.sm.current_state = t ∧
        (onecmd fuel cli line).1.sm.last_transition = some c) := by
  rw [onecmd_eq_dispatch fuel cli hp hl hc]
  have hav : c ∈ GenericCLI.get_available_commands { cli with lastcmd := l' } := by
    simp only [GenericCLI.get_available_commands, StateMachine.get_available_commands,
      List.mem_append]
    exact Or.inl (mem_dictKeys_of_dictLookup hlook)
  simp only [dispatch, if_pos hav, hh, hrun]
  rcases v with _ | _ | _
  · refine ⟨?_, ?_, ?_⟩
    · simp
    · intro _
      exact ⟨rfl, rfl⟩
    · intro hv
      exact absurd rfl hv
  · refine ⟨?_, ?_, ?_⟩
    · simp [GenericCLI.update_agent_clibase, addEvent, hlook]
    · intro hv
      exact absurd hv (by simp)
    · intro _
      constructor <;>
        simp [GenericCLI.update_agent_clibase, addEvent, hlook, StateMachine.transition]
  · refine ⟨?_, ?_, ?_⟩
    · simp [GenericCLI.update_agent_clibase, addEvent, hlook]
    · intro hv
      exact absurd hv (by simp)
    · intro _
      constructor <;>
        simp [GenericCLI.update_agent_clibase, addEvent, hlook, StateMachine.transition]

/-- Witness for C3: from `zero`, dispatching `increment` runs its handler
and lands in `positive` (state id 1) with `last_transition` recorded. -/
theorem onecmd_legal_transition_witness :
    Event.handlerRan "increment" "" ∈ (onecmd 1 egCLI "increment").1.events ∧
    (HandlerRet.otherValue = HandlerRet.cancelSentinel →
        (onecmd 1 egCLI "increment").1.sm = egCLI.sm ∧
        (onecmd 1 egCLI "increment").2 = OneCmdResult.normal false) ∧
    (HandlerRet.otherValue ≠ HandlerRet.cancelSentinel →
        (onecmd 1 egCLI "increment").1.sm.current_state = 1 ∧
        (onecmd 1 egCLI "increment").1.sm.last_transition = some "increment") :=
  @onecmd_legal_transition Nat 1 egCLI "increment" "increment" "" "increment" 1
    (fun _ n => (n + 1, HandlerOutcome.ret HandlerRet.otherValue)) 1 HandlerRet.otherValue
    (by decide) (by decide) (by decide) rfl rfl rfl

/-- C9 (amended): after every successful dispatch cycle in which the
handler returns a non-cancel value, the agent communicator is handed the
read-only snapshot of the post-dispatch CLI (current state name, last
transition, available commands, active session data and history); when
the handler returns the cancel sentinel, `onecmd` returns before
notifying, so no snapshot is sent. -/
theorem onecmd_notifies_agent {σ : Type} (fuel : Nat) (cli : CLI σ)
    {line c a l' : String} {f : Handler σ} {st' : σ} {v : HandlerRet}
    (hp : parseline line = (some c, some a, l')) (hl : l' ≠ "") (hc : c ≠ "")
    (hav : c ∈ GenericCLI.get_available_commands cli)
    (hh : cli.handlers c = some f)
    (hrun : f a cli.handlerState = (st', HandlerOutcome.ret v)) :
    (v ≠ HandlerRet.cancelSentinel →
        (onecmd fuel cli line).1.events =
          cli.events ++ [Event.handlerRan c a, Event.visualized,
            Event.notified (mkSnapshot (onecmd fuel cli line).1)]) ∧
    (v = HandlerRet.cancelSentinel →
        (onecmd fuel cli line).1.events = cli.events ++ [Event.handlerRan c a] ∧
        notifyCount (onecmd fuel cli line).1.events = notifyCount cli.events) := by
  rw [onecmd_eq_dispatch fuel cli hp hl hc]
  have hav2 : c ∈ GenericCLI.get_available_commands { cli with lastcmd := l' } := hav
  simp only [dispatch, if_pos hav2, hh, hrun]
  rcases v with _ | _ | _
  · refine ⟨fun hv => absurd rfl hv, fun _ => ⟨rfl, ?_⟩⟩
    simp [notifyCount, List.filter_append]
  · refine ⟨fun _ => ?_, fun hv => absurd hv (by simp)⟩
    by_cases hsome :
        (dictLookup c (heapGetD cli.heap cli.sm.current_state).transitions).isSome = true <;>
      simp [hsome, GenericCLI.update_agent_clibase, addEvent, mkSnapshot,
        GenericCLI.get_available_commands, StateMachine.get_available_commands]
  · refine ⟨fun _ => ?_, fun hv => absurd hv (by simp)⟩
    by_cases hsome :
        (dictLookup c (heapGetD cli.heap cli.sm.current_state).transitions).isSome = true <;>
      simp [hsome, GenericCLI.update_agent_clibase, addEvent, mkSnapshot,
        GenericCLI.get_available_commands, StateMachine.get_available_commands]

/-- Witness for C9: dispatching the self-loop command `show` ends with the
snapshot notification as the last event. -/
theorem onecmd_notifies_agent_witness :
    (HandlerRet.otherValue ≠ HandlerRet.cancelSentinel →
        (onecmd 1 egCLI "show").1.events =
          egCLI.events ++ [Event.handlerRan "show" "", Event.visualized,
            Event.notified (mkSnapshot (onecmd 1 egCLI "show").1)]) ∧
    (HandlerRet.otherValue = HandlerRet.cancelSentinel →
        (onecmd 1 egCLI "show").1.events = egCLI.events ++ [Event.handlerRan "show" ""] ∧
        notifyCount (onecmd 1 egCLI "show").1.events = notifyCount egCLI.events) :=
  @onecmd_notifies_agent Nat 1 egCLI "show" "show" "" "show"
    (fun _ n => (n, HandlerOutcome.ret HandlerRet.otherValue)) 0 HandlerRet.otherValue
    (by decide) (by decide) (by decide) (by decide) rfl rfl

/-- C9 counterexample: the claim as stated is false for cancelled
transitions.  `cancelme` is a successful dispatch cycle whose handler ran
and returned the cancel sentinel, yet the agent communicator receives no
snapshot at all (the source returns from `onecmd` before
`update_agent_clibase`). -/
theorem cancelled_dispatch_skips_notification :
    notifyCount (onecmd 1 egCLI "cancelme").1.events = 0 ∧
    handlerRanCount "cancelme" (onecmd 1 egCLI "cancelme").1.events = 1 ∧
    (onecmd 1 egCLI "cancelme").2 = OneCmdResult.normal false :=
  ⟨rfl, rfl, rfl⟩

/-- C8 (amended): of the exceptions a handler can raise, only
`AttributeError` is caught at the dispatch level (it is routed to
`cmd.Cmd.default` and the loop continues) and only `KeyboardInterrupt`
(continue) and `EOFError` (leave the loop normally) are caught at the loop
level; every other handler exception propagates out of `cmdloop` and
kills the loop. -/
theorem cmdloop_exception_dispositions {σ : Type} (fuel : Nat) (cli : CLI σ)
    {line c a l' : String} {f : Handler σ} {st' : σ} {e : ExnKind}
    (hstore : cli.storage = none)
    (hp : parseline line = (some c, some a, l')) (hl : l' ≠ "") (hc : c ≠ "")
    (hav : c ∈ GenericCLI.get_available_commands cli)
    (hh : cli.handlers c = some f)
    (hrun : f a cli.handlerState = (st', HandlerOutcome.exn e)) :
    (e = ExnKind.attributeError →
        (cmdloopStep fuel cli line).2 = LoopOutcome.continueLoop) ∧
    (e = ExnKind.keyboardInterrupt →
        (cmdloopStep fuel cli line).2 = LoopOutcome.continueLoop) ∧
    (e = ExnKind.eofError →
        (cmdloopStep fuel cli line).2 = LoopOutcome.stopLoop) ∧
    (e ≠ ExnKind.attributeError → e ≠ ExnKind.keyboardInterrupt → e ≠ ExnKind.eofError →
        (cmdloopStep fuel cli line).2 = LoopOutcome.crashed e) := by
  have hav3 : c ∈ GenericCLI.get_available_commands
      { heap := cli.heap, sm := cli.sm, handlers := cli.handlers,
        handlerState := cli.handlerState, storage := none, lastcmd := l',
        events := cli.events } := hav
  simp only [cmdloopStep, hstore, Option.isSome_none, Bool.false_eq_true, if_false,
    onecmd_eq_dispatch fuel cli hp hl hc, dispatch, if_pos hav3, hh, hrun]
  rcases e with _ | _ | _ | _ | _
  · refine ⟨fun _ => ?_, by simp, by simp, fun h _ _ => absurd rfl h⟩
    simp [cliDefault, addEvent]
  · exact ⟨by simp, fun _ => rfl, by simp, fun _ h _ => absurd rfl h⟩
  · exact ⟨by simp, by simp, fun _ => rfl, fun _ _ h => absurd rfl h⟩
  · exact ⟨by simp, by simp, by simp, fun _ _ _ => rfl⟩
  · exact ⟨by simp, by simp, by simp, fun _ _ _ => rfl⟩

/-- Witness for C8 (amended), at a generic exception: the loop iteration
crashes instead of continuing. -/
theorem cmdloop_exception_dispositions_witness :
    (ExnKind.otherExn = ExnKind.attributeError →
        (cmdloopStep 1 egCLI "boom").2 = LoopOutcome.continueLoop) ∧
    (ExnKind.otherExn = ExnKind.keyboardInterrupt →
        (cmdloopStep 1 egCLI "boom").2 = LoopOutcome.continueLoop) ∧
    (ExnKind.otherExn = ExnKind.eofError →
        (cmdloopStep 1 egCLI "boom").2 = LoopOutcome.stopLoop) ∧
    (ExnKind.otherExn ≠ ExnKind.attributeError → ExnKind.otherExn ≠ ExnKind.keyboardInterrupt →
        ExnKind.otherExn ≠ ExnKind.eofError →
        (cmdloopStep 1 egCLI "boom").2 = LoopOutcome.crashed ExnKind.otherExn) :=
  @cmdloop_exception_dispositions Nat 1 egCLI "boom" "boom" "" "boom"
    (fun _ n => (n, HandlerOutcome.exn ExnKind.otherExn)) 0 ExnKind.otherExn
    rfl (by decide) (by decide) (by decide) (by decide) rfl rfl

/-- C8 counterexample: the claim as stated is false.  The handler of
`boom` raises a generic exception during execution; the dispatch loop
does not catch it — the iteration ends `crashed`, not `continueLoop`
(`onecmd` catches only `AttributeError`, `cmdloop` only
`KeyboardInterrupt` and `EOFError`). -/
theorem handler_exception_crashes_loop :
    (cmdloopStep 1 egCLI "boom").2 = LoopOutcome.crashed ExnKind.otherExn ∧
    (cmdloopStep 1 egCLI "boom").2 ≠ LoopOutcome.continueLoop :=
  ⟨rfl, by decide⟩

end UCCLI
